import Mathlib

/-!
Verification of the constrained IGS prediction core of the
mastercard-data-challenge-2025 repository.

The definitions below are a shallow embedding, in exact rational arithmetic,
of the Python sources:

* `src/ml/models/constrained_predictor.py` (`ConstrainedIGSPredictor`):
  intervention table, intervention boost, trend summaries, the year-by-year
  constrained recursion of `predict`, and `predict_with_confidence`.
* `src/ml/models/ensemble_predictor.py` (`TrendExtrapolator`,
  `BenchmarkConverger`, `EnsembleIGSPredictor.predict`).
* `src/api/predict.py` (`validate_tract`) and
  `src/frontend/api/predict.py` / `src/src/analysis/predict_future_igs.py`
  (`normalize_fips`, `IGSPredictor.predict` feature extraction and lookup).

Python floats are modelled as `ℚ`; `round(x, 2)` is modelled as rounding
`x * 100` to the nearest integer; `np.sqrt` (used only for confidence
widths) is an abstract parameter; NumPy `NaN` is modelled with `Option`
(`none` = NaN) at the feature-table boundary where it matters.
-/

/-- Model of `np.clip(x, lo, hi)`: `min(max(x, lo), hi)`. -/
def clip (x lo hi : ℚ) : ℚ := min (max x lo) hi

/-- Model of Python `round(x, 2)`: round `x * 100` to the nearest integer and
divide by 100 (ties differ from float banker's rounding only on exact
half-cent values, which no claim depends on). -/
def round2 (x : ℚ) : ℚ := (round (x * 100) : ℤ) / 100

/-- One entry of `INTERVENTION_MULTIPLIERS` in
`src/ml/models/constrained_predictor.py`. -/
structure InterventionSpec where
  base_boost : ℚ
  max_boost : ℚ
  ramp_years : ℚ

/-- The `INTERVENTION_MULTIPLIERS` table of
`src/ml/models/constrained_predictor.py` (lines 47-78); a name absent from
the dict maps to `none`. -/
def INTERVENTION_MULTIPLIERS : String → Option InterventionSpec
  | "digital" => some ⟨0.4, 0.8, 2⟩
  | "housing" => some ⟨0.35, 0.7, 3⟩
  | "entrepreneurship" => some ⟨0.25, 0.5, 2⟩
  | "workforce" => some ⟨0.3, 0.6, 1.5⟩
  | "health" => some ⟨0.2, 0.4, 2⟩
  | "policy" => some ⟨0.15, 0.35, 3⟩
  | _ => none

/-- `SYNERGY_BONUS` constant (line 81 of `constrained_predictor.py`). -/
def SYNERGY_BONUS : ℚ := 0.08

/-- Per-intervention contribution computed inside the loop of
`_compute_intervention_boost` (lines 310-324): ramp-up factor, diminishing
returns after year 3, capped at `max_boost`. -/
def contrib (c : InterventionSpec) (year : ℕ) : ℚ :=
  let ramp_factor := min 1 ((year + 1 : ℚ) / c.ramp_years)
  let diminishing := 1 / (1 + 0.1 * max 0 ((year : ℚ) - 3))
  min (c.base_boost * ramp_factor * diminishing) c.max_boost

/-- Contribution of one listed name: names missing from
`INTERVENTION_MULTIPLIERS` are skipped (`continue`), i.e. contribute 0. -/
def interventionBoostOne (name : String) (year : ℕ) : ℚ :=
  match INTERVENTION_MULTIPLIERS name with
  | none => 0
  | some c => contrib c year

/-- Model of `ConstrainedIGSPredictor._compute_intervention_boost`
(lines 291-331): early return 0 for an empty list, accumulate the capped
contributions, then add the synergy bonus when `len(interventions) > 1`.
Note the synergy count is the raw list length, unknown names included. -/
def computeInterventionBoost (interventions : List String) (year : ℕ) : ℚ :=
  if interventions.isEmpty then 0
  else
    let total := interventions.foldl (fun acc name => acc + interventionBoostOne name year) 0
    if 1 < interventions.length then
      total + SYNERGY_BONUS * ((interventions.length : ℚ) - 1)
    else total

/-- Spec-side formula for the boost, following the words of spec section 4.4:
the sum over each known intervention of
`min(base_boost * ramp_factor * diminishing, max_boost)` plus a flat synergy
bonus of `0.08 * (count - 1)` when more than one intervention is active. -/
def boostSpec (interventions : List String) (year : ℕ) : ℚ :=
  ((interventions.filterMap INTERVENTION_MULTIPLIERS).map fun c => contrib c year).sum +
    (if 1 < interventions.length then (0.08 : ℚ) * ((interventions.length : ℚ) - 1) else 0)

/-- Model of `''.join(c for c in s if c.isdigit())`. -/
def stripNonDigits (s : String) : String := String.mk (s.data.filter Char.isDigit)

/-- Model of Python `str.zfill(width)`: left-pad with `'0'` up to `width`. -/
def zfill (width : ℕ) (s : String) : String :=
  String.mk (List.replicate (width - s.length) '0' ++ s.data)

/-- Model of Python `s[-n:]` for strings (pandas `.str[-10:]`). -/
def takeRight (n : ℕ) (s : String) : String := String.mk (s.data.drop (s.data.length - n))

/-- Model of `np.diff` on a list of scores. -/
def diffs : List ℚ → List ℚ
  | a :: b :: rest => (b - a) :: diffs (b :: rest)
  | _ => []

/-- Model of `np.linspace(a, b, n)`: `n` evenly spaced points from `a` to `b`
inclusive (`[a]` when `n = 1`). -/
def linspace (a b : ℚ) (n : ℕ) : List ℚ :=
  if n = 1 then [a]
  else (List.range n).map fun i => a + (b - a) * i / ((n : ℚ) - 1)

/-- Model of `np.average(xs, weights=ws)`. -/
def npAverage (xs ws : List ℚ) : ℚ := (List.zipWith (fun x w => x * w) xs ws).sum / ws.sum

/-- Square of `np.std` (population variance); kept squared so the embedding
stays in `ℚ`. -/
def npVariance (l : List ℚ) : ℚ :=
  ((l.map fun x => (x - l.sum / (l.length : ℚ)) ^ 2).sum) / (l.length : ℚ)

/-- One entry of `ConstrainedIGSPredictor.tract_trends` as built by
`_compute_tract_trends` (lines 126-161). The dict stored for a tract with
fewer than two data points has only the `trend` and `volatility` keys, so
every other field is an `Option` that is `none` on that branch.
`volatility_sq` is the square of the stored volatility. -/
structure TractTrendEntry where
  trend : ℚ
  volatility_sq : ℚ
  latest_igs : Option ℚ
  latest_year : Option ℤ
  mean_igs : Option ℚ
  history : Option (List ℚ)
deriving DecidableEq

/-- Model of the per-tract body of `_compute_tract_trends` (lines 131-161).
`history` is the tract's (year, score) rows already sorted by year. -/
def computeTractTrend (history : List (ℤ × ℚ)) : TractTrendEntry :=
  if history.length < 2 then
    { trend := 0, volatility_sq := 1, latest_igs := none, latest_year := none,
      mean_igs := none, history := none }
  else
    let igs_scores := history.map Prod.snd
    let yearly_changes := diffs igs_scores
    let weights := linspace 0.5 1 yearly_changes.length
    let weighted_trend := npAverage yearly_changes weights
    let vol_sq := if 1 < yearly_changes.length then npVariance yearly_changes else 1
    { trend := weighted_trend, volatility_sq := vol_sq,
      latest_igs := igs_scores.getLast?,
      latest_year := (history.map Prod.fst).getLast?,
      mean_igs := some (igs_scores.sum / (igs_scores.length : ℚ)),
      history := some igs_scores }

/-- One ACS row as a mapping from column name to value: outer `none` means
the column is absent, inner `none` means the stored value is NaN. -/
abbrev AcsRow : Type := String → Option (Option ℚ)

/-- Feature columns used by `ConstrainedIGSPredictor._get_features`
(lines 176-180). -/
def FEATURE_COLS : List String :=
  ["median_household_income", "gini_index", "per_capita_income", "poverty_rate",
   "unemployment_rate", "labor_force_participation_rate", "housing_cost_burden_rate",
   "broadband_access_rate"]

/-- Model of `tract_acs.iloc[0].get(col, 0)` followed by
`float(val) if pd.notna(val) else 0` (lines 182-188): both a missing column
and a NaN value become 0. -/
def getFeatureValue (row : AcsRow) (col : String) : ℚ :=
  match row col with
  | none => 0
  | some none => 0
  | some (some v) => v

/-- Model of `ConstrainedIGSPredictor._get_features` (lines 163-190):
`None` when no ACS data is loaded or no row's trailing 10 digits match. -/
def getFeatures (acs_df : Option (List (String × AcsRow))) (tract : String) :
    Option (List ℚ) :=
  match acs_df with
  | none => none
  | some rows =>
    match (rows.filter fun r => takeRight 10 r.1 == tract).head? with
    | none => none
    | some r => some (FEATURE_COLS.map (getFeatureValue r.2))

/-- Trend summary as consumed by `ConstrainedIGSPredictor.predict`
(`latest_igs`, `trend`, `volatility` keys; the fallback literal on line 362
is `{latest_igs: 23, trend: 0.5, volatility: 1.5}`). -/
structure TrendInfo where
  latest_igs : ℚ
  trend : ℚ
  volatility : ℚ

/-- Step 4 of `predict` (lines 397-401): the total yearly change clipped to
`YEARLY_CHANGE_BOUNDS` `[-2.0, 3.5]`, before boundary dampening. -/
def rawDelta (mlChange : ℚ) (interventions : List String) (year : ℕ) : ℚ :=
  clip (mlChange + computeInterventionBoost interventions year) (-2) 3.5

/-- Boundary dampening (lines 404-407): above 70 multiply by 0.7, below 25
floor at +0.3, otherwise unchanged. -/
def dampedDelta (running d : ℚ) : ℚ :=
  if running > 70 then d * 0.7
  else if running < 25 then max d 0.3
  else d

/-- One iteration of the `predict` loop: clip the combined change, dampen it
at the boundaries of the current running score, add it, and clip the new
running score to `[0, 100]` (lines 393-413). -/
def constrainedStep (mlChange : ℚ) (interventions : List String) (year : ℕ)
    (running : ℚ) : ℚ :=
  clip (running + dampedDelta running (rawDelta mlChange interventions year)) 0 100

/-- The `for year in range(years_ahead)` loop of `predict` (lines 373-415):
`ml` abstracts the yearly-change source as a function of the running score
and the year index; each appended value is rounded to 2 decimals while the
unrounded running score feeds the next iteration. -/
def constrainedLoop (ml : ℚ → ℕ → ℚ) (interventions : List String) (running : ℚ)
    (year : ℕ) : ℕ → List ℚ
  | 0 => []
  | n + 1 =>
    let next := constrainedStep (ml running year) interventions year running
    round2 next :: constrainedLoop ml interventions next (year + 1) n

/-- Mutable fields of `ConstrainedIGSPredictor` that `predict` can read or
write: the fitted regression (as the function it computes on a feature row),
the fitted scaler transform, the per-tract trend summaries, and the two
loaded data tables. -/
structure PredictorState where
  model : Option (List ℚ → ℚ)
  scaler : Option (List ℚ → List ℚ)
  tract_trends : List (String × TrendInfo)
  igs_df : Option (List (String × ℤ × ℚ))
  acs_df : Option (List (String × AcsRow))

/-- ML branch of the loop body (lines 375-384): evaluate the fitted model on
the scaled concatenation of the static features with
`[running_igs, base_trend, year]`. -/
def mlOf (m : List ℚ → ℚ) (sc : List ℚ → List ℚ) (features : List ℚ)
    (base_trend : ℚ) : ℚ → ℕ → ℚ :=
  fun running_igs year => m (sc (features ++ [running_igs, base_trend, (year : ℚ)]))

/-- Body of `ConstrainedIGSPredictor.predict` after the model-loading guard
(lines 354-417): normalize the tract id with `zfill(10)`, fall back to
`{latest_igs: 23, trend: 0.5, volatility: 1.5}` when the tract has no trend
entry, and use the trend itself as the yearly change when features or model
are unavailable. The source assumes the scaler is fitted whenever the model
is (they are persisted together), hence the `getD id`. -/
def predictCore (s : PredictorState) (tract : String) (interventions : List String)
    (years_ahead : ℕ) : List ℚ :=
  let t := zfill 10 tract
  let trend_info := (s.tract_trends.lookup t).getD ⟨23, 0.5, 1.5⟩
  match getFeatures s.acs_df t, s.model with
  | some f, some m =>
    constrainedLoop (mlOf m (s.scaler.getD id) f trend_info.trend) interventions
      trend_info.latest_igs 0 years_ahead
  | _, _ =>
    constrainedLoop (fun _ _ => trend_info.trend) interventions
      trend_info.latest_igs 0 years_ahead

/-- Model of `ConstrainedIGSPredictor.predict` (lines 333-417) as a state
transformer: when `self.model is None` the method first runs `self.load()`
(abstracted as `load`, which may mutate the state), otherwise the state is
only read. Returns the predictions together with the post-call state. -/
def predictS (load : PredictorState → PredictorState) (s : PredictorState)
    (tract : String) (interventions : List String) (years_ahead : ℕ) :
    List ℚ × PredictorState :=
  match s.model with
  | none =>
    let s' := load s
    (predictCore s' tract interventions years_ahead, s')
  | some _ => (predictCore s tract interventions years_ahead, s)

/-- Model of `ConstrainedIGSPredictor.predict_with_confidence`
(lines 419-453). `sqrtA i` abstracts `np.sqrt(i)`; the volatility lookup
defaults to 1.5 as in the source. -/
def predictWithConfidenceS (sqrtA : ℕ → ℚ) (load : PredictorState → PredictorState)
    (s : PredictorState) (tract : String) (interventions : List String)
    (years_ahead : ℕ) : (List ℚ × List ℚ × List ℚ) × PredictorState :=
  let r := predictS load s tract interventions years_ahead
  let t := zfill 10 tract
  let volatility := ((r.2.tract_trends.lookup t).map TrendInfo.volatility).getD 1.5
  let lower := (List.range years_ahead).map fun i =>
    round2 (max 0 (r.1.getD i 0 - volatility * sqrtA (i + 1) * 0.8))
  let upper := (List.range years_ahead).map fun i =>
    round2 (min 100 (r.1.getD i 0 + volatility * sqrtA (i + 1) * 0.8))
  ((r.1, lower, upper), r.2)

/-- Loop of `TrendExtrapolator.predict` in
`src/ml/models/ensemble_predictor.py` (lines 70-84): geometric trend decay,
clip the change, clip the score to `[0, 100]`, emit rounded values. -/
def trendLoop (trend current : ℚ) (year : ℕ) : ℕ → List ℚ
  | 0 => []
  | n + 1 =>
    let change := clip (trend * (0.9 : ℚ) ^ year) (-2) 3.5
    let next := clip (current + change) 0 100
    round2 next :: trendLoop trend next (year + 1) n

/-- Model of `TrendExtrapolator.predict` (lines 62-84): per-tract smoothed
trend and latest value, with fallback `{smoothed_trend: 0.5, latest: 23}`. -/
def trendPredictT (trends : List (String × ℚ × ℚ)) (tract : String)
    (years_ahead : ℕ) : List ℚ :=
  let t := zfill 10 tract
  let info := (trends.lookup t).getD (0.5, 23)
  trendLoop info.1 info.2 0 years_ahead

/-- Loop of `BenchmarkConverger.predict` (lines 144-163): close `rate` of the
gap to the benchmark, halve the step within 85% of the benchmark, clip, and
emit rounded values. -/
def benchmarkLoop (benchmark_igs rate current : ℚ) : ℕ → List ℚ
  | 0 => []
  | n + 1 =>
    let gap := benchmark_igs - current
    let change := gap * rate
    let change' := if current > benchmark_igs * 0.85 then change * 0.5 else change
    let change'' := clip change' (-2) 3.5
    let next := clip (current + change'') 0 100
    round2 next :: benchmarkLoop benchmark_igs rate next n

/-- Model of `BenchmarkConverger.predict` (lines 126-163) with the default
`convergence_rate = 0.08` used by `EnsembleIGSPredictor`: a non-empty
intervention list (unknown names included) scales the rate by
`1 + 0.15 * len(interventions)`; unknown tracts fall back to latest 23. -/
def benchmarkPredictT (tracts : List (String × ℚ)) (benchmark_igs : ℚ)
    (tract : String) (interventions : List String) (years_ahead : ℕ) : List ℚ :=
  let t := zfill 10 tract
  let current := (tracts.lookup t).getD 23
  let rate := if interventions.isEmpty then (0.08 : ℚ)
    else 0.08 * (1 + 0.15 * (interventions.length : ℚ))
  benchmarkLoop benchmark_igs rate current years_ahead

/-- Model of `EnsembleIGSPredictor.predict` (lines 224-258) with the default
weights `{ml: 0.50, trend: 0.30, benchmark: 0.20}`: the per-year weighted
average of the three component forecasts, rounded to 2 decimals. -/
def ensemblePredict (load : PredictorState → PredictorState) (s : PredictorState)
    (trends : List (String × ℚ × ℚ)) (btracts : List (String × ℚ))
    (benchmark_igs : ℚ) (tract : String) (interventions : List String)
    (years_ahead : ℕ) : List ℚ :=
  let ml_pred := (predictS load s tract interventions years_ahead).1
  let trend_pred := trendPredictT trends tract years_ahead
  let benchmark_pred := benchmarkPredictT btracts benchmark_igs tract interventions years_ahead
  (List.range years_ahead).map fun i =>
    round2 (0.5 * ml_pred.getD i 0 + 0.3 * trend_pred.getD i 0 +
      0.2 * benchmark_pred.getD i 0)

/-- Model of `validate_tract` in `src/api/predict.py` (lines 56-62): falsy
input is rejected, then non-digits are stripped, the rest zero-padded to 10,
and the result rejected when shorter than 10 characters. -/
def validate_tract (tract : String) : Except String String :=
  if tract = "" then Except.error "Tract FIPS code is required"
  else
    let tract_str := zfill 10 (stripNonDigits tract)
    if tract_str.length < 10 then Except.error "Invalid tract FIPS code"
    else Except.ok tract_str

/-- Model of `normalize_fips` in `src/frontend/api/predict.py` (lines 62-68):
falsy input rejected, more than 11 digits rejected, otherwise the digits
zero-padded to width 10. -/
def normalize_fips (fips : String) : Except String String :=
  if fips = "" then Except.error "FIPS code is required"
  else
    let fips_clean := stripNonDigits fips
    if 11 < fips_clean.length then Except.error "Invalid FIPS code: too long"
    else Except.ok (zfill 10 fips_clean)

/-- The `FEATURES` list of `src/src/analysis/predict_future_igs.py`
(lines 26-40), also used by `src/frontend/api/predict.py`. -/
def FEATURES_frontend : List String :=
  ["median_household_income", "gini_index", "per_capita_income", "poverty_rate",
   "unemployment_rate", "labor_force_participation_rate", "housing_cost_burden_rate",
   "broadband_access_rate", "computer_access_rate", "median_home_value",
   "white_alone_pct", "black_alone_pct", "hispanic_latino_pct"]

/-- Model of `acs_features.get(fk, 0.0)` in `IGSPredictor.predict`: a missing
column becomes 0.0, but a present column whose stored value is NaN stays NaN
(`some none` maps to `none`, i.e. NaN). -/
def getFeatureFrontend (row : AcsRow) (col : String) : Option ℚ :=
  match row col with
  | none => some 0
  | some v => v

/-- The `feature_vector` built by `IGSPredictor.predict` (line 202 of
`src/src/analysis/predict_future_igs.py`); `none` entries are NaN. -/
def featureVectorFrontend (row : AcsRow) : List (Option ℚ) :=
  FEATURES_frontend.map (getFeatureFrontend row)

/-- The `input_row = [current_year + step] + feature_vector + [prev_igs]`
passed to `self.model.predict` by `IGSPredictor.predict`. -/
def frontendInputRow (year : ℚ) (fv : List (Option ℚ)) (prev_igs : ℚ) :
    List (Option ℚ) :=
  some year :: fv ++ [some prev_igs]

/-- Validation-and-lookup prefix of `IGSPredictor.predict`
(`src/src/analysis/predict_future_igs.py` lines 175-196 and identically
`src/frontend/api/predict.py`): normalize the tract id, then require a
trailing-10-digit match in the ACS table and an exact match in the IGS
table, raising `ValueError` otherwise. Returns the normalized id. -/
def igsPredictorLookup (acs igs : List String) (tract : String) :
    Except String String :=
  match normalize_fips tract with
  | Except.error e => Except.error e
  | Except.ok t =>
    if ((acs.filter fun k => takeRight 10 k == t).isEmpty) then
      Except.error "No ACS data found for tract"
    else if ((igs.filter fun k => k == t).isEmpty) then
      Except.error "No IGS data found for tract"
    else Except.ok t

/-! Basic facts about `clip` and `round2`. -/

lemma clip_le_hi (x lo hi : ℚ) : clip x lo hi ≤ hi := min_le_right _ _

lemma lo_le_clip (x : ℚ) {lo hi : ℚ} (h : lo ≤ hi) : lo ≤ clip x lo hi :=
  le_min (le_max_right x lo) h

lemma clip_mono (lo hi : ℚ) {x y : ℚ} (h : x ≤ y) : clip x lo hi ≤ clip y lo hi :=
  min_le_min (max_le_max h le_rfl) le_rfl

lemma round_mono_q {x y : ℚ} (h : x ≤ y) : round x ≤ round y := by
  rw [round_eq, round_eq]
  exact Int.floor_mono (by linarith)

lemma round2_mono {x y : ℚ} (h : x ≤ y) : round2 x ≤ round2 y := by
  unfold round2
  have h1 : round (x * 100) ≤ round (y * 100) := round_mono_q (by linarith)
  have h2 : ((round (x * 100) : ℤ) : ℚ) ≤ ((round (y * 100) : ℤ) : ℚ) := by exact_mod_cast h1
  linarith

lemma round2_nonneg {x : ℚ} (h : 0 ≤ x) : 0 ≤ round2 x := by
  unfold round2
  have h1 : round (0 : ℚ) ≤ round (x * 100) := round_mono_q (by linarith)
  rw [round_zero] at h1
  have h2 : (0 : ℚ) ≤ ((round (x * 100) : ℤ) : ℚ) := by exact_mod_cast h1
  linarith

lemma round2_le_100 {x : ℚ} (h : x ≤ 100) : round2 x ≤ 100 := by
  unfold round2
  have h1 : round (x * 100) ≤ round (((10000 : ℤ) : ℚ)) := round_mono_q (by push_cast; linarith)
  rw [round_intCast] at h1
  have h2 : ((round (x * 100) : ℤ) : ℚ) ≤ 10000 := by exact_mod_cast h1
  linarith

lemma round2_cent (x : ℚ) : ∃ k : ℤ, round2 x = (k : ℚ) / 100 := ⟨round (x * 100), rfl⟩

lemma emitted_value_prop (x : ℚ) :
    0 ≤ round2 (clip x 0 100) ∧ round2 (clip x 0 100) ≤ 100 ∧
      ∃ k : ℤ, round2 (clip x 0 100) = (k : ℚ) / 100 :=
  ⟨round2_nonneg (lo_le_clip x (by norm_num)),
   round2_le_100 (clip_le_hi x 0 100), round2_cent _⟩

/-! Facts about the intervention boost. -/

lemma foldl_add_eq (f : String → ℚ) :
    ∀ (l : List String) (a : ℚ),
      l.foldl (fun acc name => acc + f name) a = a + (l.map f).sum := by
  intro l
  induction l with
  | nil => intro a; simp
  | cons x t ih => intro a; simp only [List.foldl_cons, List.map_cons, List.sum_cons, ih]; ring

lemma boost_eq (l : List String) (y : ℕ) :
    computeInterventionBoost l y =
      (l.map fun nm => interventionBoostOne nm y).sum +
        (if 1 < l.length then SYNERGY_BONUS * ((l.length : ℚ) - 1) else 0) := by
  unfold computeInterventionBoost
  cases l with
  | nil => simp
  | cons a t =>
    rw [foldl_add_eq]
    simp only [List.isEmpty_cons, Bool.false_eq_true, if_false, zero_add]
    split <;> simp

lemma mapsum_filterMap (y : ℕ) :
    ∀ l : List String,
      (l.map fun nm => interventionBoostOne nm y).sum =
        ((l.filterMap INTERVENTION_MULTIPLIERS).map fun c => contrib c y).sum := by
  intro l
  induction l with
  | nil => simp
  | cons a t ih =>
    cases h : INTERVENTION_MULTIPLIERS a with
    | none =>
      have ha : interventionBoostOne a y = 0 := by simp [interventionBoostOne, h]
      simp only [List.map_cons, List.sum_cons, List.filterMap_cons, h, ha, ih, zero_add]
    | some c =>
      have ha : interventionBoostOne a y = contrib c y := by simp [interventionBoostOne, h]
      simp only [List.map_cons, List.sum_cons, List.filterMap_cons, h, ha, ih]

lemma multipliers_pos {name : String} {c : InterventionSpec}
    (h : INTERVENTION_MULTIPLIERS name = some c) :
    0 ≤ c.base_boost ∧ 0 ≤ c.max_boost ∧ 0 < c.ramp_years := by
  unfold INTERVENTION_MULTIPLIERS at h
  split at h <;> simp_all <;> (rw [← h]; norm_num)

lemma contrib_nonneg {c : InterventionSpec} (hb : 0 ≤ c.base_boost)
    (hm : 0 ≤ c.max_boost) (hr : 0 < c.ramp_years) (y : ℕ) : 0 ≤ contrib c y := by
  unfold contrib
  apply le_min _ hm
  have h1 : (0 : ℚ) ≤ min 1 ((y + 1 : ℚ) / c.ramp_years) :=
    le_min (by norm_num) (by positivity)
  have h2 : (0 : ℚ) ≤ max 0 ((y : ℚ) - 3) := le_max_left _ _
  have h3 : (0 : ℚ) < 1 + 0.1 * max 0 ((y : ℚ) - 3) := by nlinarith
  have h4 : (0 : ℚ) ≤ 1 / (1 + 0.1 * max 0 ((y : ℚ) - 3)) := by positivity
  exact mul_nonneg (mul_nonneg hb h1) h4

lemma interventionBoostOne_nonneg (name : String) (y : ℕ) :
    0 ≤ interventionBoostOne name y := by
  rcases h : INTERVENTION_MULTIPLIERS name with _ | c
  · simp [interventionBoostOne, h]
  · have hc := multipliers_pos h
    simp only [interventionBoostOne, h]
    exact contrib_nonneg hc.1 hc.2.1 hc.2.2 y

lemma boost_sum_nonneg (l : List String) (y : ℕ) :
    0 ≤ (l.map fun nm => interventionBoostOne nm y).sum := by
  apply List.sum_nonneg
  intro x hx
  rcases List.mem_map.mp hx with ⟨nm, _, rfl⟩
  exact interventionBoostOne_nonneg nm y

lemma boost_append_le (l : List String) (name : String) (y : ℕ) :
    computeInterventionBoost l y ≤ computeInterventionBoost (l ++ [name]) y := by
  have hb : 0 ≤ interventionBoostOne name y := interventionBoostOne_nonneg name y
  rw [boost_eq, boost_eq, List.map_append, List.sum_append]
  simp only [List.map_cons, List.map_nil, List.sum_cons, List.sum_nil, add_zero,
    List.length_append, List.length_cons, List.length_nil]
  rcases l with _ | ⟨a, _ | ⟨b, t⟩⟩
  · norm_num
    linarith
  · norm_num [SYNERGY_BONUS]
    linarith
  · have h1 : 1 < t.length + 1 + 1 := by omega
    have h2 : 1 < t.length + 1 + 1 + 1 := by omega
    simp only [List.length_cons, List.length_nil]
    rw [if_pos h1, if_pos h2]
    push_cast
    norm_num [SYNERGY_BONUS]
    linarith

lemma boost_single_unknown {name : String}
    (h : INTERVENTION_MULTIPLIERS name = none) (y : ℕ) :
    computeInterventionBoost [name] y = computeInterventionBoost [] y := by
  rw [boost_eq, boost_eq]
  simp [interventionBoostOne, h]

/-! Facts about the recursion loops. -/

lemma constrainedLoop_mem (ml : ℚ → ℕ → ℚ) (itv : List String) :
    ∀ (n : ℕ) (running : ℚ) (year : ℕ),
      ∀ v ∈ constrainedLoop ml itv running year n,
        0 ≤ v ∧ v ≤ 100 ∧ ∃ k : ℤ, v = (k : ℚ) / 100 := by
  intro n
  induction n with
  | zero => intro running year v hv; simp [constrainedLoop] at hv
  | succ m ih =>
    intro running year v hv
    rw [constrainedLoop] at hv
    rcases List.mem_cons.mp hv with rfl | hv
    · exact emitted_value_prop _
    · exact ih _ _ v hv

lemma constrainedLoop_length (ml : ℚ → ℕ → ℚ) (itv : List String) :
    ∀ (n : ℕ) (running : ℚ) (year : ℕ),
      (constrainedLoop ml itv running year n).length = n := by
  intro n
  induction n with
  | zero => intro running year; rfl
  | succ m ih => intro running year; rw [constrainedLoop]; simp [ih]

lemma constrainedLoop_congr_boost (ml : ℚ → ℕ → ℚ) {itv itv' : List String}
    (h : ∀ y, computeInterventionBoost itv y = computeInterventionBoost itv' y) :
    ∀ (n : ℕ) (running : ℚ) (year : ℕ),
      constrainedLoop ml itv running year n = constrainedLoop ml itv' running year n := by
  intro n
  induction n with
  | zero => intro running year; rfl
  | succ m ih =>
    intro running year
    rw [constrainedLoop, constrainedLoop]
    have hstep : constrainedStep (ml running year) itv year running =
        constrainedStep (ml running year) itv' year running := by
      unfold constrainedStep rawDelta
      rw [h year]
    rw [hstep, ih]

lemma constrainedStep_mono_boost {itv itv' : List String} (m : ℚ) (y : ℕ) (r : ℚ)
    (h : computeInterventionBoost itv y ≤ computeInterventionBoost itv' y) :
    constrainedStep m itv y r ≤ constrainedStep m itv' y r := by
  unfold constrainedStep
  apply clip_mono
  have hraw : rawDelta m itv y ≤ rawDelta m itv' y := clip_mono _ _ (by linarith)
  unfold dampedDelta
  split_ifs with h1 h2
  · linarith
  · exact add_le_add_left (max_le_max hraw le_rfl) r
  · linarith

lemma constrainedLoop_getD0_mono (ml : ℚ → ℕ → ℚ) {itv itv' : List String}
    (r : ℚ) (n : ℕ)
    (h : computeInterventionBoost itv 0 ≤ computeInterventionBoost itv' 0) :
    (constrainedLoop ml itv r 0 n).getD 0 0 ≤ (constrainedLoop ml itv' r 0 n).getD 0 0 := by
  cases n with
  | zero => simp [constrainedLoop]
  | succ m =>
    rw [constrainedLoop, constrainedLoop]
    simp only [List.getD_cons_zero]
    exact round2_mono (constrainedStep_mono_boost _ _ _ h)

lemma trendLoop_mem (trend : ℚ) :
    ∀ (n : ℕ) (current : ℚ) (year : ℕ),
      ∀ v ∈ trendLoop trend current year n,
        0 ≤ v ∧ v ≤ 100 ∧ ∃ k : ℤ, v = (k : ℚ) / 100 := by
  intro n
  induction n with
  | zero => intro current year v hv; simp [trendLoop] at hv
  | succ m ih =>
    intro current year v hv
    rw [trendLoop] at hv
    rcases List.mem_cons.mp hv with rfl | hv
    · exact emitted_value_prop _
    · exact ih _ _ v hv

lemma benchmarkLoop_mem (benchmark_igs rate : ℚ) :
    ∀ (n : ℕ) (current : ℚ),
      ∀ v ∈ benchmarkLoop benchmark_igs rate current n,
        0 ≤ v ∧ v ≤ 100 ∧ ∃ k : ℤ, v = (k : ℚ) / 100 := by
  intro n
  induction n with
  | zero => intro current v hv; simp [benchmarkLoop] at hv
  | succ m ih =>
    intro current v hv
    rw [benchmarkLoop] at hv
    rcases List.mem_cons.mp hv with rfl | hv
    · exact emitted_value_prop _
    · exact ih _ v hv

lemma predictCore_mem (s : PredictorState) (tract : String) (itv : List String)
    (n : ℕ) : ∀ v ∈ predictCore s tract itv n,
      0 ≤ v ∧ v ≤ 100 ∧ ∃ k : ℤ, v = (k : ℚ) / 100 := by
  intro v hv
  simp only [predictCore] at hv
  split at hv
  · exact constrainedLoop_mem _ _ _ _ _ v hv
  · exact constrainedLoop_mem _ _ _ _ _ v hv

lemma predictCore_length (s : PredictorState) (tract : String) (itv : List String)
    (n : ℕ) : (predictCore s tract itv n).length = n := by
  simp only [predictCore]
  split
  · exact constrainedLoop_length _ _ _ _ _
  · exact constrainedLoop_length _ _ _ _ _

lemma predictS_exists_state (load : PredictorState → PredictorState)
    (s : PredictorState) (tract : String) (itv : List String) (n : ℕ) :
    ∃ s', (predictS load s tract itv n).1 = predictCore s' tract itv n := by
  unfold predictS
  rcases s.model with _ | m
  · exact ⟨load s, rfl⟩
  · exact ⟨s, rfl⟩

lemma predictS_mem (load : PredictorState → PredictorState) (s : PredictorState)
    (tract : String) (itv : List String) (n : ℕ) :
    ∀ v ∈ (predictS load s tract itv n).1,
      0 ≤ v ∧ v ≤ 100 ∧ ∃ k : ℤ, v = (k : ℚ) / 100 := by
  rcases predictS_exists_state load s tract itv n with ⟨s', hs⟩
  rw [hs]
  exact predictCore_mem s' tract itv n

lemma getD_zero_mem (l : List ℚ) (i : ℕ) : l.getD i 0 ∈ l ∨ l.getD i 0 = 0 := by
  induction l generalizing i with
  | nil => simp
  | cons a t ih =>
    cases i with
    | zero => left; simp
    | succ j =>
      rw [List.getD_cons_succ]
      rcases ih j with h | h
      · exact Or.inl (List.mem_cons_of_mem a h)
      · exact Or.inr h

lemma getD_bounds {l : List ℚ}
    (h : ∀ v ∈ l, 0 ≤ v ∧ v ≤ 100 ∧ ∃ k : ℤ, v = (k : ℚ) / 100) (i : ℕ) :
    0 ≤ l.getD i 0 ∧ l.getD i 0 ≤ 100 := by
  rcases getD_zero_mem l i with hm | he
  · exact ⟨(h _ hm).1, (h _ hm).2.1⟩
  · rw [he]; norm_num

lemma predictCore_congr_boost (s : PredictorState) (tract : String)
    {itv itv' : List String}
    (h : ∀ y, computeInterventionBoost itv y = computeInterventionBoost itv' y)
    (n : ℕ) : predictCore s tract itv n = predictCore s tract itv' n := by
  simp only [predictCore]
  split
  · exact constrainedLoop_congr_boost _ h _ _ _
  · exact constrainedLoop_congr_boost _ h _ _ _

lemma trendPredictT_mem (trends : List (String × ℚ × ℚ)) (tract : String) (n : ℕ) :
    ∀ v ∈ trendPredictT trends tract n,
      0 ≤ v ∧ v ≤ 100 ∧ ∃ k : ℤ, v = (k : ℚ) / 100 := by
  simp only [trendPredictT]
  exact trendLoop_mem _ _ _ _

lemma benchmarkPredictT_mem (tracts : List (String × ℚ)) (benchmark_igs : ℚ)
    (tract : String) (itv : List String) (n : ℕ) :
    ∀ v ∈ benchmarkPredictT tracts benchmark_igs tract itv n,
      0 ≤ v ∧ v ≤ 100 ∧ ∃ k : ℤ, v = (k : ℚ) / 100 := by
  simp only [benchmarkPredictT]
  exact benchmarkLoop_mem _ _ _ _

/-- C1: every value emitted by `ConstrainedIGSPredictor.predict` (modelled by
`predictS`, over every predictor state, tract, intervention list and horizon)
and every value emitted by `EnsembleIGSPredictor.predict` (modelled by
`ensemblePredict`) lies in the closed interval `[0, 100]` and is an integer
multiple of `1/100`, i.e. is rounded to 2 decimal places. -/
theorem forecast_values_bounded_and_rounded :
    ∀ (load : PredictorState → PredictorState) (s : PredictorState)
      (trends : List (String × ℚ × ℚ)) (btracts : List (String × ℚ))
      (benchmark_igs : ℚ) (tract : String) (itv : List String) (n : ℕ),
      (∀ v ∈ (predictS load s tract itv n).1,
        0 ≤ v ∧ v ≤ 100 ∧ ∃ k : ℤ, v = (k : ℚ) / 100) ∧
      (∀ v ∈ ensemblePredict load s trends btracts benchmark_igs tract itv n,
        0 ≤ v ∧ v ≤ 100 ∧ ∃ k : ℤ, v = (k : ℚ) / 100) := by
  intro load s trends btracts benchmark_igs tract itv n
  refine ⟨predictS_mem load s tract itv n, ?_⟩
  intro v hv
  simp only [ensemblePredict] at hv
  rcases List.mem_map.mp hv with ⟨i, _, rfl⟩
  have ha := getD_bounds (predictS_mem load s tract itv n) i
  have hb := getD_bounds (trendPredictT_mem trends tract n) i
  have hc := getD_bounds (benchmarkPredictT_mem btracts benchmark_igs tract itv n) i
  exact ⟨round2_nonneg (by linarith), round2_le_100 (by linarith), round2_cent _⟩

/-- C1 witness: instantiating the theorem at a concrete state (fitted model,
no ACS data, empty trend table) whose one-year forecast is `[23.5]`. -/
theorem forecast_values_bounded_and_rounded_witness :
    0 ≤ (23.5 : ℚ) ∧ (23.5 : ℚ) ≤ 100 ∧ ∃ k : ℤ, (23.5 : ℚ) = (k : ℚ) / 100 :=
  (forecast_values_bounded_and_rounded id
    ⟨some (fun _ => 0), some id, [], none, none⟩ [] [] 50 "t" [] 1).1 23.5
    (by norm_num [predictS, predictCore, getFeatures, List.lookup, constrainedLoop,
      constrainedStep, dampedDelta, rawDelta, computeInterventionBoost, clip,
      round2, round_eq, min_def, max_def])

/-- C2: for a predictor state in which the tract has no trend entry (so the
fallback summary `{latest_igs: 23, trend: 0.5, volatility: 1.5}` is used) and
no ACS features are available (so the base forecaster falls back to
`ml_delta = trend`), zero interventions and `years_ahead = 3` produce exactly
`[23.5, 24.0, 24.5]`: each step applies
`max(clip(0.5 + 0, -2.0, 3.5), 0.3) = 0.5` because the running score stays
below 25. -/
theorem fallback_scenario_forecast :
    (predictS id ⟨some (fun _ => 0), some id, [], none, none⟩ "1121010500" [] 3).1 =
      [23.5, 24, 24.5] := by
  norm_num [predictS, predictCore, getFeatures, List.lookup, constrainedLoop,
    constrainedStep, dampedDelta, rawDelta, computeInterventionBoost, clip,
    round2, round_eq, min_def, max_def]

/-- C3: for every intervention list and simulated year index, the boost
computed by `_compute_intervention_boost` equals the spec formula: the sum
over the known interventions of
`min(base_boost * min(1, (y+1)/ramp_years) * (1 / (1 + 0.1 * max(0, y-3))), max_boost)`
plus `0.08 * (count - 1)` when more than one intervention is listed; in
particular the empty list yields boost 0 for every year. -/
theorem intervention_boost_formula :
    (∀ (l : List String) (y : ℕ), computeInterventionBoost l y = boostSpec l y) ∧
      ∀ y : ℕ, computeInterventionBoost [] y = 0 := by
  constructor
  · intro l y
    rw [boost_eq, boostSpec, mapsum_filterMap]
    norm_num [SYNERGY_BONUS]
  · intro y
    rfl

/-- C6: in every step of the forecast recursion (over every ml-delta, every
intervention list, every year index and every running score, hence including
the step from the latest known score to the first forecast value), the raw
per-step delta after clipping lies in `[-2.0, 3.5]`, the boundary-dampened
delta also stays in `[-2.0, 3.5]`, and the applied update is exactly this
dampened delta (before the final `[0,100]` clip of the running score). -/
theorem yearly_delta_bounded :
    ∀ (m : ℚ) (itv : List String) (y : ℕ) (r : ℚ),
      (-2 ≤ rawDelta m itv y ∧ rawDelta m itv y ≤ 3.5) ∧
      (-2 ≤ dampedDelta r (rawDelta m itv y) ∧ dampedDelta r (rawDelta m itv y) ≤ 3.5) ∧
      constrainedStep m itv y r = clip (r + dampedDelta r (rawDelta m itv y)) 0 100 := by
  intro m itv y r
  have h1 : -2 ≤ rawDelta m itv y := lo_le_clip _ (by norm_num)
  have h2 : rawDelta m itv y ≤ 3.5 := clip_le_hi _ _ _
  refine ⟨⟨h1, h2⟩, ?_, rfl⟩
  unfold dampedDelta
  split_ifs with hgt hlt
  · constructor <;> linarith
  · constructor
    · have : (0.3 : ℚ) ≤ max (rawDelta m itv y) 0.3 := le_max_right _ _
      linarith
    · exact max_le h2 (by norm_num)
  · exact ⟨h1, h2⟩

/-- C7: evaluating the trend-summary construction on a single-point history.
The claim says the summary should carry `latest = the sole observed value`;
the code's short-history branch stores only `{trend: 0, volatility: 1.0}`,
so `latest_igs` (and every other field read later by `predict`) is absent. -/
theorem single_point_trend_summary :
    computeTractTrend [(2020, 23)] =
      { trend := 0, volatility_sq := 1, latest_igs := none, latest_year := none,
        mean_igs := none, history := none } := by
  rfl

/-- C9: evaluating the frontend feature extraction on a row whose
`gini_index` column is present but NaN: the `input_row` handed to
`self.model.predict` by `IGSPredictor.predict` contains the NaN (`none`),
because `Series.get(fk, 0.0)` only defaults missing columns, not NaN values. -/
theorem nan_reaches_regression :
    none ∈ frontendInputRow 2025
      (featureVectorFrontend
        (fun c => if c = "gini_index" then some none else some (some 1))) 23 := by
  decide

/-- C10: when the model is already fitted (`model` is not `None`), both
`predict` and `predict_with_confidence` leave the predictor state — model,
scaler, tract trends and the loaded data tables — unchanged, for every tract,
intervention list, horizon, and any behaviour of `load`. -/
theorem predict_is_pure_read :
    ∀ (sqrtA : ℕ → ℚ) (load : PredictorState → PredictorState) (s : PredictorState)
      (tract : String) (itv : List String) (n : ℕ),
      s.model.isSome →
      (predictS load s tract itv n).2 = s ∧
        (predictWithConfidenceS sqrtA load s tract itv n).2 = s := by
  intro sqrtA load s tract itv n h
  rcases hm : s.model with _ | m
  · rw [hm] at h; simp at h
  · constructor
    · simp [predictS, hm]
    · simp [predictWithConfidenceS, predictS, hm]

/-- C10 witness: instantiating the frame theorem at a concrete fitted state. -/
theorem predict_is_pure_read_witness :
    (predictS id ⟨some (fun _ => 0), some id, [], none, none⟩ "1121010500" [] 5).2 =
      (⟨some (fun _ => 0), some id, [], none, none⟩ : PredictorState) ∧
    (predictWithConfidenceS (fun _ => 1) id ⟨some (fun _ => 0), some id, [], none, none⟩
        "1121010500" [] 5).2 =
      (⟨some (fun _ => 0), some id, [], none, none⟩ : PredictorState) :=
  predict_is_pure_read (fun _ => 1) id ⟨some (fun _ => 0), some id, [], none, none⟩
    "1121010500" [] 5 rfl

lemma multipliers_digital_eq :
    INTERVENTION_MULTIPLIERS "digital" = some ⟨0.4, 0.8, 2⟩ := rfl

lemma multipliers_bogus_eq : INTERVENTION_MULTIPLIERS "bogus" = none := rfl

lemma predictCore_getD0_mono (s : PredictorState) (tract : String)
    {itv itv' : List String}
    (h : computeInterventionBoost itv 0 ≤ computeInterventionBoost itv' 0) (n : ℕ) :
    (predictCore s tract itv n).getD 0 0 ≤ (predictCore s tract itv' n).getD 0 0 := by
  simp only [predictCore]
  split
  · exact constrainedLoop_getD0_mono _ _ _ h
  · exact constrainedLoop_getD0_mono _ _ _ h

/-- C4 counterexample: for the reachable state of a tract with history
`[28.7, 26.8]` (latest 26.8, weighted trend -1.9, volatility 1.0) and no ACS
features, the two-year forecast with `["digital"]` is `[25.1, 23.6]` while
with `[]` it is `[24.9, 25.2]`: the boosted run crosses 25 after year one
(landing at 25.1, a 0.1 margin above the boundary, so float rounding cannot
flip the comparison) and so loses the +0.3 floor, making its year-2 value
`25.1 - 1.5 = 23.6`, strictly smaller than the baseline's `24.9 + 0.3 = 25.2`.
Every comparison against 25, 70 and the clip bounds holds with a margin of at
least 0.1, so the same trace holds in IEEE double arithmetic. Adding a valid
intervention therefore can decrease a later year's forecast value. -/
theorem intervention_monotonicity_counterexample :
    (predictS id ⟨some (fun _ => 0), some id, [(zfill 10 "1", ⟨26.8, -1.9, 1⟩)], none, none⟩
        "1" ["digital"] 2).1.getD 1 0 <
      (predictS id ⟨some (fun _ => 0), some id, [(zfill 10 "1", ⟨26.8, -1.9, 1⟩)], none, none⟩
        "1" [] 2).1.getD 1 0 := by
  norm_num [predictS, predictCore, getFeatures, List.lookup, beq_self_eq_true,
    constrainedLoop, constrainedStep, dampedDelta, rawDelta, computeInterventionBoost,
    interventionBoostOne, multipliers_digital_eq, contrib, clip, round2, round_eq,
    min_def, max_def, SYNERGY_BONUS]

/-- C4 amended: adding a valid intervention name never decreases the
intervention boost at any simulated year, and never decreases the first
year's forecast value (the counterexample above shows later years can
decrease, because the below-25 floor depends on the running score). -/
theorem intervention_monotonicity_amended :
    (∀ (itv : List String) (name : String) (y : ℕ),
        (INTERVENTION_MULTIPLIERS name).isSome →
        computeInterventionBoost itv y ≤ computeInterventionBoost (itv ++ [name]) y) ∧
      ∀ (load : PredictorState → PredictorState) (s : PredictorState) (tract : String)
        (itv : List String) (name : String) (n : ℕ),
        (INTERVENTION_MULTIPLIERS name).isSome →
        (predictS load s tract itv n).1.getD 0 0 ≤
          (predictS load s tract (itv ++ [name]) n).1.getD 0 0 := by
  constructor
  · intro itv name y _h
    exact boost_append_le itv name y
  · intro load s tract itv name n _h
    have h0 : computeInterventionBoost itv 0 ≤ computeInterventionBoost (itv ++ [name]) 0 :=
      boost_append_le itv name 0
    rcases hm : s.model with _ | m
    · simp only [predictS, hm]
      exact predictCore_getD0_mono _ _ h0 n
    · simp only [predictS, hm]
      exact predictCore_getD0_mono _ _ h0 n

/-- C4 witness: the amended monotonicity applied to switching from `[]` to
`["digital"]` at a concrete state. -/
theorem intervention_monotonicity_amended_witness :
    (computeInterventionBoost [] 0 ≤ computeInterventionBoost ([] ++ ["digital"]) 0) ∧
      (predictS id ⟨some (fun _ => 0), some id, [], none, none⟩ "1" [] 2).1.getD 0 0 ≤
        (predictS id ⟨some (fun _ => 0), some id, [], none, none⟩ "1"
          ([] ++ ["digital"]) 2).1.getD 0 0 :=
  ⟨intervention_monotonicity_amended.1 [] "digital" 0 rfl,
   intervention_monotonicity_amended.2 id ⟨some (fun _ => 0), some id, [], none, none⟩
     "1" [] "digital" 2 rfl⟩

/-- C5 counterexample: with the fallback state for an unknown tract
(constrained latest 23/trend 0.5, trend-extrapolator default, benchmark 50),
the one-year ensemble forecast with the single unrecognized name `["bogus"]`
is `[23.9]` while with `[]` it is `[23.83]`: `BenchmarkConverger.predict`
scales its convergence rate by `1 + 0.15 * len(interventions)` using the raw
list length, so unrecognized names are not a no-op for the ensemble. -/
theorem unknown_intervention_counterexample :
    ensemblePredict id ⟨some (fun _ => 0), some id, [], none, none⟩ [] [] 50
        "1" ["bogus"] 1 ≠
      ensemblePredict id ⟨some (fun _ => 0), some id, [], none, none⟩ [] [] 50
        "1" [] 1 := by
  norm_num [ensemblePredict, predictS, predictCore, getFeatures, List.lookup,
    trendPredictT, trendLoop, benchmarkPredictT, benchmarkLoop, constrainedLoop,
    constrainedStep, dampedDelta, rawDelta, computeInterventionBoost,
    interventionBoostOne, multipliers_bogus_eq, contrib, clip, round2, round_eq,
    min_def, max_def, SYNERGY_BONUS, List.range_succ]

/-- C5 amended: for the constrained predictor an intervention list consisting
of a single unrecognized name yields exactly the same sequence as the empty
list, for every state, tract and horizon (with two or more names the synergy
bonus still counts them, and the ensemble's `BenchmarkConverger` scales its
rate by the raw list length, so such lists do change the output — see the
counterexample). -/
theorem unknown_intervention_amended :
    ∀ (load : PredictorState → PredictorState) (s : PredictorState) (tract : String)
      (name : String) (n : ℕ), INTERVENTION_MULTIPLIERS name = none →
      (predictS load s tract [name] n).1 = (predictS load s tract [] n).1 := by
  intro load s tract name n h
  have hb : ∀ y, computeInterventionBoost [name] y = computeInterventionBoost [] y :=
    fun y => boost_single_unknown h y
  rcases hm : s.model with _ | m
  · simp only [predictS, hm]
    exact predictCore_congr_boost _ _ hb n
  · simp only [predictS, hm]
    exact predictCore_congr_boost _ _ hb n

/-- C5 witness: the amended no-op property at a concrete state and the
unrecognized name `"bogus"`. -/
theorem unknown_intervention_amended_witness :
    (predictS id ⟨some (fun _ => 0), some id, [], none, none⟩ "1" ["bogus"] 2).1 =
      (predictS id ⟨some (fun _ => 0), some id, [], none, none⟩ "1" [] 2).1 :=
  unknown_intervention_amended id ⟨some (fun _ => 0), some id, [], none, none⟩
    "1" "bogus" 2 rfl

/-- C8 counterexample: `ConstrainedIGSPredictor.predict` does not fail for a
tract with no matching feature or history data — for a state with empty
trend table and no ACS data, the input `"no-such-tract"` silently produces
the forecast `[23.5]` via the fallback summary
`{latest_igs: 23, trend: 0.5, volatility: 1.5}` (lines 360-362), instead of
an `InvalidTract`-style error. -/
theorem unmatched_tract_counterexample :
    (predictS id ⟨some (fun _ => 0), some id, [], none, none⟩ "no-such-tract" [] 1).1 =
      [23.5] := by
  norm_num [predictS, predictCore, getFeatures, List.lookup, constrainedLoop,
    constrainedStep, dampedDelta, rawDelta, computeInterventionBoost, clip,
    round2, round_eq, min_def, max_def]

/-- C8 amended: on the frontend `IGSPredictor.predict` path the claim's
failure condition holds: the lookup succeeds exactly when the input is
non-empty, carries at most 11 digits, and the digits-stripped zero-padded
tract id has a trailing-10-digit match in the ACS table and an exact match
in the IGS history table (an all-non-digit input normalizes to
`"0000000000"` and can only fail via the data lookup, not a digits check).
The constrained predictor, by contrast, never fails: it always returns
`years_ahead` values, falling back to a default summary (see the
counterexample). -/
theorem tract_validation_amended :
    (∀ (acs igs : List String) (tract : String),
      (∃ t, igsPredictorLookup acs igs tract = Except.ok t) ↔
        (tract ≠ "" ∧ (stripNonDigits tract).length ≤ 11 ∧
          (∃ k ∈ acs, takeRight 10 k = zfill 10 (stripNonDigits tract)) ∧
          zfill 10 (stripNonDigits tract) ∈ igs)) ∧
      ∀ (load : PredictorState → PredictorState) (s : PredictorState) (tract : String)
        (itv : List String) (n : ℕ), (predictS load s tract itv n).1.length = n := by
  constructor
  · intro acs igs tract
    by_cases h1 : tract = ""
    · simp [igsPredictorLookup, normalize_fips, h1]
    · by_cases h2 : 11 < (stripNonDigits tract).length
      · simp only [igsPredictorLookup, normalize_fips, if_neg h1, if_pos h2]
        constructor
        · rintro ⟨t, ht⟩
          cases ht
        · rintro ⟨-, hlen, -, -⟩
          omega
      · simp only [igsPredictorLookup, normalize_fips, if_neg h1, if_neg h2]
        by_cases h3 :
            ((acs.filter fun k => takeRight 10 k == zfill 10 (stripNonDigits tract)).isEmpty)
        · simp only [if_pos h3]
          constructor
          · rintro ⟨t, ht⟩
            cases ht
          · rintro ⟨-, -, ⟨k, hk, hkt⟩, -⟩
            rw [List.isEmpty_iff, List.filter_eq_nil_iff] at h3
            exact absurd hkt (by simpa using h3 k hk)
        · by_cases h4 : ((igs.filter fun k => k == zfill 10 (stripNonDigits tract)).isEmpty)
          · simp only [if_neg h3, if_pos h4]
            constructor
            · rintro ⟨t, ht⟩
              cases ht
            · rintro ⟨-, -, -, hmem⟩
              rw [List.isEmpty_iff, List.filter_eq_nil_iff] at h4
              exact absurd (beq_self_eq_true (zfill 10 (stripNonDigits tract))) (h4 _ hmem)
          · simp only [if_neg h3, if_neg h4]
            constructor
            · intro _
              refine ⟨h1, by omega, ?_, ?_⟩
              · rcases hfe : (acs.filter fun k =>
                    takeRight 10 k == zfill 10 (stripNonDigits tract)) with _ | ⟨k, rest⟩
                · rw [hfe] at h3
                  simp at h3
                · have hk : k ∈ acs.filter fun k =>
                      takeRight 10 k == zfill 10 (stripNonDigits tract) := by
                    rw [hfe]
                    exact List.mem_cons_self _ _
                  rcases List.mem_filter.mp hk with ⟨hka, hkp⟩
                  exact ⟨k, hka, by simpa using hkp⟩
              · rcases hfe : (igs.filter fun k => k == zfill 10 (stripNonDigits tract)) with
                  _ | ⟨k, rest⟩
                · rw [hfe] at h4
                  simp at h4
                · have hk : k ∈ igs.filter fun k => k == zfill 10 (stripNonDigits tract) := by
                    rw [hfe]
                    exact List.mem_cons_self _ _
                  rcases List.mem_filter.mp hk with ⟨hka, hkp⟩
                  have hkq : k = zfill 10 (stripNonDigits tract) := by simpa using hkp
                  rwa [hkq] at hka
            · intro _
              exact ⟨_, rfl⟩
  · intro load s tract itv n
    rcases predictS_exists_state load s tract itv n with ⟨s', hs⟩
    rw [hs]
    exact predictCore_length s' tract itv n
